import Mathlib

/-!
Shallow embedding of `src/main.py` of the Portfolio-Mail-Sender service.

The service is a FastAPI application with a single stateful endpoint,
`POST /contact`.  The embedding models:

* pydantic validation of the `ContactForm` body (lines 39-43); the email
  grammar implemented by the `EmailStr`/`email-validator` library is kept
  abstract as a boolean predicate `ev : String → Bool` supplied as a
  parameter;
* the slowapi `1/hour` fixed-window rate limiter keyed by remote address
  (lines 16 and 132): an in-memory table mapping each address to a counter
  together with the expiry instant of its window; a hit on a fresh or
  expired key creates a window of 3600 seconds starting now with count 1
  and is admitted; a hit inside a live window increments the counter and
  is admitted only when the new count is still at most 1;
* the Brevo dispatch helper `send_email_via_brevo` (lines 56-119),
  including the per-request reads of `BREVO_API_KEY`, `SENDER_EMAIL`,
  `SENDER_NAME` and `RECIPIENT_EMAIL` from the environment, the composed
  `SendSmtpEmail` object with HTML and plain-text bodies, and the mapping
  of exceptions to HTTP 500 details; the provider call itself is a
  parameter `api : SendSmtpEmail → Except BrevoExn Unit`;
* the route handler `contact` (lines 131-160).  FastAPI resolves and
  validates the request body *before* invoking the decorated endpoint
  function, and the slowapi rate check runs inside that wrapped function,
  so in `handleContact` validation precedes the rate-limit hit.
-/

namespace PortfolioMailSender

/-- Field names of the `ContactForm` pydantic model (`src/main.py` lines 39-43). -/
inductive FieldName
  | name
  | email
  | subject
  | message
deriving DecidableEq, Repr

/-- Raw JSON body of a `POST /contact` request, before validation. -/
structure RawForm where
  name : String
  email : String
  subject : String
  message : String
deriving DecidableEq, Repr

/-- A validated contact form: the pydantic `ContactForm` model. -/
structure ContactForm where
  name : String
  email : String
  subject : String
  message : String
deriving DecidableEq, Repr

/-- `name: str = Field(..., min_length=1, max_length=100)`. -/
def nameOk (s : String) : Bool := 1 ≤ s.length && s.length ≤ 100

/-- `subject: str = Field(..., min_length=1, max_length=200)`. -/
def subjectOk (s : String) : Bool := 1 ≤ s.length && s.length ≤ 200

/-- `message: str = Field(..., min_length=1, max_length=5000)`. -/
def messageOk (s : String) : Bool := 1 ≤ s.length && s.length ≤ 5000

/-- The list of fields of `r` that violate their pydantic constraint, in
declaration order.  `ev` is the abstract email grammar behind `EmailStr`. -/
def contactFormErrors (ev : String → Bool) (r : RawForm) : List FieldName :=
  (if nameOk r.name then [] else [.name]) ++
  (if ev r.email then [] else [.email]) ++
  (if subjectOk r.subject then [] else [.subject]) ++
  (if messageOk r.message then [] else [.message])

/-- Whether a single field of `r` violates its constraint. -/
def fieldViolated (ev : String → Bool) (r : RawForm) : FieldName → Bool
  | .name => !nameOk r.name
  | .email => !ev r.email
  | .subject => !subjectOk r.subject
  | .message => !messageOk r.message

/-- FastAPI body validation against `ContactForm`: either the validated model
or the list of offending fields (reported as an HTTP 422 response). -/
def parseContactForm (ev : String → Bool) (r : RawForm) :
    Except (List FieldName) ContactForm :=
  if contactFormErrors ev r = [] then
    .ok ⟨r.name, r.email, r.subject, r.message⟩
  else
    .error (contactFormErrors ev r)

/-- Whether validation accepted the body. -/
def accepted (e : Except (List FieldName) ContactForm) : Bool :=
  match e with
  | .ok _ => true
  | .error _ => false

/-- The process environment variables read by `src/main.py`
(`os.getenv` in lines 58 and 72-74); `none` models an unset variable. -/
structure Env where
  BREVO_API_KEY : Option String
  SENDER_EMAIL : Option String
  SENDER_NAME : Option String
  RECIPIENT_EMAIL : Option String
deriving DecidableEq, Repr

/-- `os.getenv("SENDER_EMAIL", "noreply@yourdomain.com")` (line 72). -/
def senderEmail (env : Env) : String := env.SENDER_EMAIL.getD "noreply@yourdomain.com"

/-- `os.getenv("SENDER_NAME", "Contact Form")` (line 73). -/
def senderName (env : Env) : String := env.SENDER_NAME.getD "Contact Form"

/-- `os.getenv("RECIPIENT_EMAIL", "dumilakshan4878@gmail.com")` (line 74). -/
def recipientEmail (env : Env) : String := env.RECIPIENT_EMAIL.getD "dumilakshan4878@gmail.com"

/-- The `sib_api_v3_sdk.SendSmtpEmail` object built in lines 103-110.
`toEmails` models the `to` keyword argument (a Lean keyword). -/
structure SendSmtpEmail where
  toEmails : List String
  senderEmail : String
  senderName : String
  replyToEmail : String
  replyToName : String
  subject : String
  htmlContent : String
  textContent : String
deriving DecidableEq, Repr

/-- Literal text of the `html_content` f-string (lines 77-89) before `{contact_data.name}`. -/
def htmlChunk0 : String :=
  "\n        <html>\n            <body>\n                <h2>New Contact Form Submission</h2>\n                <p><strong>From:</strong> "

/-- `html_content` between `{contact_data.name}` and `{contact_data.email}`. -/
def htmlChunk1 : String :=
  "</p>\n                <p><strong>Email:</strong> "

/-- `html_content` between `{contact_data.email}` and `{contact_data.subject}`. -/
def htmlChunk2 : String :=
  "</p>\n                <p><strong>Subject:</strong> "

/-- `html_content` between `{contact_data.subject}` and `{contact_data.message}`. -/
def htmlChunk3 : String :=
  "</p>\n                <hr>\n                <h3>Message:</h3>\n                <p>"

/-- `html_content` after `{contact_data.message}`. -/
def htmlChunk4 : String :=
  "</p>\n            </body>\n        </html>\n        "

/-- The rich-text rendering `html_content` of lines 77-89. -/
def htmlContentOf (c : ContactForm) : String :=
  htmlChunk0 ++ c.name ++ htmlChunk1 ++ c.email ++ htmlChunk2 ++ c.subject ++
    htmlChunk3 ++ c.message ++ htmlChunk4

/-- Literal text of the `text_content` f-string (lines 91-100) before `{contact_data.name}`. -/
def textChunk0 : String :=
  "\n        New Contact Form Submission\n\n        From: "

/-- `text_content` between `{contact_data.name}` and `{contact_data.email}`. -/
def textChunk1 : String :=
  "\n        Email: "

/-- `text_content` between `{contact_data.email}` and `{contact_data.subject}`. -/
def textChunk2 : String :=
  "\n        Subject: "

/-- `text_content` between `{contact_data.subject}` and `{contact_data.message}`. -/
def textChunk3 : String :=
  "\n\n        Message:\n        "

/-- `text_content` after `{contact_data.message}`. -/
def textChunk4 : String :=
  "\n        "

/-- The plain-text rendering `text_content` of lines 91-100. -/
def textContentOf (c : ContactForm) : String :=
  textChunk0 ++ c.name ++ textChunk1 ++ c.email ++ textChunk2 ++ c.subject ++
    textChunk3 ++ c.message ++ textChunk4

/-- The notification composed in lines 103-110: addressed to the configured
recipient, sent from the configured sender, with reply-to set to the
submitter, and carrying both renderings. -/
def composeEmail (env : Env) (c : ContactForm) : SendSmtpEmail where
  toEmails := [recipientEmail env]
  senderEmail := senderEmail env
  senderName := senderName env
  replyToEmail := c.email
  replyToName := c.name
  subject := "Contact Form: " ++ c.subject
  htmlContent := htmlContentOf c
  textContent := textContentOf c

/-- Exceptions the provider call `api_instance.send_transac_email` can raise:
`ApiException` (line 116) or any other exception (line 118). -/
inductive BrevoExn
  | apiException (msg : String)
  | otherException (msg : String)
deriving DecidableEq, Repr

/-- `send_email_via_brevo` (lines 66-119).  Returns the result (detail string
of the HTTP 500 on failure, the sent email on success) together with the
list of provider calls actually made.  A missing `BREVO_API_KEY` raises
`ValueError` in `get_brevo_client` (line 60), caught by the generic
`except Exception` arm (line 118) before any provider call; an exception
from the provider call is converted to a 500 detail (lines 116-119). -/
def send_email_via_brevo (env : Env) (api : SendSmtpEmail → Except BrevoExn Unit)
    (c : ContactForm) : Except String SendSmtpEmail × List SendSmtpEmail :=
  match env.BREVO_API_KEY with
  | none =>
      (.error "An error occurred: BREVO_API_KEY not found in environment variables", [])
  | some _ =>
      match api (composeEmail env c) with
      | .ok _ => (.ok (composeEmail env c), [composeEmail env c])
      | .error (.apiException m) =>
          (.error ("Failed to send email: " ++ m), [composeEmail env c])
      | .error (.otherException m) =>
          (.error ("An error occurred: " ++ m), [composeEmail env c])

/-- The HTTP 500 detail string produced for each exception arm of
`send_email_via_brevo` (lines 116-119): `ApiException` from the provider
call, or any other exception such as a network failure. -/
def dispatchErrorDetail : BrevoExn → String
  | .apiException m => "Failed to send email: " ++ m
  | .otherException m => "An error occurred: " ++ m

/-- One per-address record of the slowapi fixed-window limiter: the instant
the window expires and the number of hits counted in the window. -/
structure WindowEntry where
  expiry : Nat
  count : Nat
deriving DecidableEq, Repr

/-- The limiter's in-memory storage: remote address to window record. -/
abbrev RateState := List (String × WindowEntry)

/-- Look up the record of `addr`. -/
def lookupEntry : RateState → String → Option WindowEntry
  | [], _ => none
  | (a, v) :: rest, addr => if a == addr then some v else lookupEntry rest addr

/-- Store `e` as the record of `addr`, replacing any previous record. -/
def setEntry : RateState → String → WindowEntry → RateState
  | [], addr, e => [(addr, e)]
  | (a, v) :: rest, addr, e =>
      if a == addr then (addr, e) :: rest else (a, v) :: setEntry rest addr e

/-- The window length of the `1/hour` limit, in seconds. -/
def windowSeconds : Nat := 3600

/-- One hit of the slowapi fixed-window limiter for `addr` at time `t`
(`@limiter.limit("1/hour")`, line 132): returns whether the request is
admitted, and the updated storage.  A fresh or expired key starts a new
window `[t, t + 3600)` with count 1 and admits; inside a live window the
counter is incremented and the hit is admitted only if the new count is
at most the limit amount 1; the expiry of a live window never moves. -/
def rateLimitHit (s : RateState) (addr : String) (t : Nat) : Bool × RateState :=
  match lookupEntry s addr with
  | some e =>
      if e.expiry ≤ t then
        (true, setEntry s addr ⟨t + windowSeconds, 1⟩)
      else
        (decide (e.count + 1 ≤ 1), setEntry s addr ⟨e.expiry, e.count + 1⟩)
  | none => (true, setEntry s addr ⟨t + windowSeconds, 1⟩)

/-- The possible responses of `POST /contact`. -/
inductive ContactResponse
  | validationError (fields : List FieldName)
  | rateLimited
  | dispatchError (detail : String)
  | success (name email subject : String)
deriving DecidableEq, Repr

/-- HTTP status code of each response (422, 429, 500, 200). -/
def statusCode : ContactResponse → Nat
  | .validationError _ => 422
  | .rateLimited => 429
  | .dispatchError _ => 500
  | .success _ _ _ => 200

/-- Whether the response shows the request passed the rate-limit gate
(its quota hit was admitted and dispatch was attempted). -/
def isAdmitted : ContactResponse → Bool
  | .success _ _ _ => true
  | .dispatchError _ => true
  | .validationError _ => false
  | .rateLimited => false

/-- Everything observable about the handling of one request: the HTTP
response, the provider calls made, and the limiter storage afterwards. -/
structure RequestOutcome where
  response : ContactResponse
  dispatchCalls : List SendSmtpEmail
  state : RateState
deriving DecidableEq, Repr

/-- Handling of one `POST /contact` request (lines 131-160) from remote
address `addr` at time `t` with raw body `r`.  FastAPI validates the body
against `ContactForm` before calling the decorated endpoint, so a 422 is
produced without touching the limiter; the slowapi wrapper then performs
the rate-limit hit and raises 429 before the endpoint body runs; finally
the endpoint body calls `send_email_via_brevo` and either returns the
success payload echoing name, email and subject (lines 148-156) or
re-raises the `HTTPException` (line 158). -/
def handleContact (ev : String → Bool) (env : Env)
    (api : SendSmtpEmail → Except BrevoExn Unit)
    (s : RateState) (addr : String) (t : Nat) (r : RawForm) : RequestOutcome :=
  match parseContactForm ev r with
  | .error errs => ⟨.validationError errs, [], s⟩
  | .ok form =>
      if (rateLimitHit s addr t).1 then
        match send_email_via_brevo env api form with
        | (.ok _, calls) =>
            ⟨.success form.name form.email form.subject, calls, (rateLimitHit s addr t).2⟩
        | (.error d, calls) =>
            ⟨.dispatchError d, calls, (rateLimitHit s addr t).2⟩
      else
        ⟨.rateLimited, [], (rateLimitHit s addr t).2⟩

/-- One incoming request: arrival time, remote address, raw body. -/
structure ContactRequest where
  time : Nat
  addr : String
  form : RawForm
deriving DecidableEq, Repr

/-- Handling of a sequence of requests, threading the limiter storage:
returns the responses in order and the final storage. -/
def runRequests (ev : String → Bool) (env : Env)
    (api : SendSmtpEmail → Except BrevoExn Unit) :
    RateState → List ContactRequest → List ContactResponse × RateState
  | s, [] => ([], s)
  | s, q :: qs =>
      let o := handleContact ev env api s q.addr q.time q.form
      let rest := runRequests ev env api o.state qs
      (o.response :: rest.1, rest.2)

/-- Expected response of a request arriving inside a live window whose
count is already at least 1: 422 for an invalid body (the limiter is
never consulted), 429 for a valid one. -/
def inWindowResponse (ev : String → Bool) (q : ContactRequest) : ContactResponse :=
  match parseContactForm ev q.form with
  | .error errs => .validationError errs
  | .ok _ => .rateLimited

/-- A concrete decidable email grammar used to instantiate `ev` in closed
scenarios. -/
def demoEmailValid (s : String) : Bool :=
  s == "john@example.com" || s == "jane@example.org"

/-- A fully configured environment for closed scenarios. -/
def demoEnv : Env :=
  ⟨some "key123", some "noreply@site.com", some "Site", some "owner@site.com"⟩

/-- An environment with no variables set. -/
def demoEnvEmpty : Env := ⟨none, none, none, none⟩

/-- A provider that accepts every call. -/
def apiOk : SendSmtpEmail → Except BrevoExn Unit := fun _ => .ok ()

/-- A provider that rejects every call with an `ApiException`. -/
def apiFail : SendSmtpEmail → Except BrevoExn Unit :=
  fun _ => .error (.apiException "boom")

/-- A provider whose call fails with a non-`ApiException` exception, as a
network failure does (caught by the generic arm at line 118). -/
def apiNetFail : SendSmtpEmail → Except BrevoExn Unit :=
  fun _ => .error (.otherException "connection timeout")

/-- The valid example submission from the model's `json_schema_extra`. -/
def demoForm : RawForm :=
  ⟨"John Doe", "john@example.com", "Inquiry", "Hello"⟩

/-- A second valid submission. -/
def demoForm2 : RawForm :=
  ⟨"Jane", "jane@example.org", "Hi", "There"⟩

/-- A submission with an empty name (violates `min_length=1`). -/
def demoBadForm : RawForm :=
  ⟨"", "john@example.com", "Inquiry", "Hello"⟩

/-- A submission with an invalid email and an empty subject. -/
def demoBadForm2 : RawForm :=
  ⟨"Ann", "not-an-address", "", "Hi"⟩

/-- Two follow-up requests inside the demo window: a valid one and an
invalid one, both from the same address. -/
def demoReqs : List ContactRequest :=
  [⟨160, "9.9.9.9", demoForm2⟩, ⟨220, "9.9.9.9", demoBadForm⟩]

/-! ## Helper lemmas -/

/-- A string is empty iff its length is zero. -/
theorem length_eq_zero_iff (s : String) : s.length = 0 ↔ s = "" := by
  constructor
  · intro h
    cases s with
    | mk data =>
      cases data with
      | nil => rfl
      | cons a l => simp [String.length] at h
  · intro h
    subst h
    rfl

/-- The error list is empty iff every field satisfies its constraint. -/
theorem contactFormErrors_eq_nil_iff (ev : String → Bool) (r : RawForm) :
    contactFormErrors ev r = [] ↔
      (nameOk r.name = true ∧ ev r.email = true ∧
        subjectOk r.subject = true ∧ messageOk r.message = true) := by
  unfold contactFormErrors
  split_ifs <;> simp_all

/-- Membership in the error list characterises exactly the violated fields. -/
theorem mem_contactFormErrors (ev : String → Bool) (r : RawForm) (f : FieldName) :
    f ∈ contactFormErrors ev r ↔ fieldViolated ev r f = true := by
  cases f <;>
    · simp only [contactFormErrors, fieldViolated]
      split_ifs <;> simp_all

/-- The `name` constraint in the spec's wording. -/
theorem nameOk_iff (s : String) : nameOk s = true ↔ (s ≠ "" ∧ s.length ≤ 100) := by
  simp only [nameOk, Bool.and_eq_true, decide_eq_true_eq]
  rw [Nat.one_le_iff_ne_zero, ne_eq, length_eq_zero_iff]

/-- The `subject` constraint in the spec's wording. -/
theorem subjectOk_iff (s : String) : subjectOk s = true ↔ (s ≠ "" ∧ s.length ≤ 200) := by
  simp only [subjectOk, Bool.and_eq_true, decide_eq_true_eq]
  rw [Nat.one_le_iff_ne_zero, ne_eq, length_eq_zero_iff]

/-- The `message` constraint in the spec's wording. -/
theorem messageOk_iff (s : String) : messageOk s = true ↔ (s ≠ "" ∧ s.length ≤ 5000) := by
  simp only [messageOk, Bool.and_eq_true, decide_eq_true_eq]
  rw [Nat.one_le_iff_ne_zero, ne_eq, length_eq_zero_iff]

/-- Looking up the address just stored yields the stored record. -/
theorem lookupEntry_setEntry_self (s : RateState) (addr : String) (e : WindowEntry) :
    lookupEntry (setEntry s addr e) addr = some e := by
  induction s with
  | nil => simp [setEntry, lookupEntry]
  | cons p rest ih =>
    obtain ⟨a, v⟩ := p
    by_cases h : a == addr
    · simp [setEntry, lookupEntry, h]
    · simp [setEntry, lookupEntry, h, ih]

/-- A hit on an address with no record opens a fresh window and admits. -/
theorem rateLimitHit_fresh (s : RateState) (addr : String) (t : Nat)
    (h : lookupEntry s addr = none) :
    rateLimitHit s addr t = (true, setEntry s addr ⟨t + windowSeconds, 1⟩) := by
  unfold rateLimitHit
  rw [h]

/-- A hit on an expired record opens a fresh window and admits. -/
theorem rateLimitHit_expired (s : RateState) (addr : String) (t : Nat) (e : WindowEntry)
    (h : lookupEntry s addr = some e) (hexp : e.expiry ≤ t) :
    rateLimitHit s addr t = (true, setEntry s addr ⟨t + windowSeconds, 1⟩) := by
  unfold rateLimitHit
  rw [h]
  simp [hexp]

/-- A hit inside a live window that already counted a request is denied;
the window's expiry does not move, only the counter grows. -/
theorem rateLimitHit_live (s : RateState) (addr : String) (t : Nat) (e : WindowEntry)
    (h : lookupEntry s addr = some e) (hc : 1 ≤ e.count) (hexp : t < e.expiry) :
    rateLimitHit s addr t = (false, setEntry s addr ⟨e.expiry, e.count + 1⟩) := by
  unfold rateLimitHit
  rw [h]
  have h1 : ¬ e.expiry ≤ t := Nat.not_le.mpr hexp
  have h2 : ¬ (e.count + 1 ≤ 1) := by omega
  simp [h1, h2]

/-- A request whose body fails validation is answered 422 without touching
the limiter storage and without any provider call. -/
theorem handleContact_of_parse_error (ev : String → Bool) (env : Env)
    (api : SendSmtpEmail → Except BrevoExn Unit) (s : RateState) (addr : String)
    (t : Nat) (r : RawForm) (errs : List FieldName)
    (h : parseContactForm ev r = .error errs) :
    handleContact ev env api s addr t r = ⟨.validationError errs, [], s⟩ := by
  unfold handleContact
  rw [h]

/-- A valid request denied by the limiter is answered 429 with no provider
call. -/
theorem handleContact_of_parse_ok_denied (ev : String → Bool) (env : Env)
    (api : SendSmtpEmail → Except BrevoExn Unit) (s : RateState) (addr : String)
    (t : Nat) (r : RawForm) (form : ContactForm)
    (hp : parseContactForm ev r = .ok form)
    (hh : (rateLimitHit s addr t).1 = false) :
    handleContact ev env api s addr t r = ⟨.rateLimited, [], (rateLimitHit s addr t).2⟩ := by
  unfold handleContact
  rw [hp]
  simp [hh]

/-- A valid admitted request proceeds to the dispatch step. -/
theorem handleContact_of_parse_ok_admitted (ev : String → Bool) (env : Env)
    (api : SendSmtpEmail → Except BrevoExn Unit) (s : RateState) (addr : String)
    (t : Nat) (r : RawForm) (form : ContactForm)
    (hp : parseContactForm ev r = .ok form)
    (hh : (rateLimitHit s addr t).1 = true) :
    handleContact ev env api s addr t r =
      match send_email_via_brevo env api form with
      | (.ok _, calls) =>
          ⟨.success form.name form.email form.subject, calls, (rateLimitHit s addr t).2⟩
      | (.error d, calls) => ⟨.dispatchError d, calls, (rateLimitHit s addr t).2⟩ := by
  unfold handleContact
  rw [hp]
  simp [hh]

/-- An admitted request always ends in a success or dispatch-error response,
and its limiter storage is the one updated by the admitting hit. -/
theorem handleContact_admitted_facts (ev : String → Bool) (env : Env)
    (api : SendSmtpEmail → Except BrevoExn Unit) (s : RateState) (addr : String)
    (t : Nat) (r : RawForm) (form : ContactForm)
    (hp : parseContactForm ev r = .ok form)
    (hh : (rateLimitHit s addr t).1 = true) :
    isAdmitted (handleContact ev env api s addr t r).response = true ∧
    (handleContact ev env api s addr t r).state = (rateLimitHit s addr t).2 := by
  rw [handleContact_of_parse_ok_admitted ev env api s addr t r form hp hh]
  rcases hsend : send_email_via_brevo env api form with ⟨res, calls⟩
  cases res <;> simp [isAdmitted]

/-- When validation passes, the parsed model carries the submitted fields. -/
theorem parse_ok_inv (ev : String → Bool) (r : RawForm) (form : ContactForm)
    (hp : parseContactForm ev r = .ok form) :
    form = ⟨r.name, r.email, r.subject, r.message⟩ := by
  unfold parseContactForm at hp
  split_ifs at hp
  exact (Except.ok.inj hp).symm

/-- When no field is violated, validation succeeds with the submitted fields. -/
theorem parse_ok_of_errors_nil (ev : String → Bool) (r : RawForm)
    (h : contactFormErrors ev r = []) :
    parseContactForm ev r = .ok ⟨r.name, r.email, r.subject, r.message⟩ := by
  unfold parseContactForm
  rw [if_pos h]

/-- With a missing `BREVO_API_KEY`, `get_brevo_client` raises `ValueError`,
caught by the generic handler: a 500 detail and no provider call. -/
theorem send_email_via_brevo_noKey (env : Env) (api : SendSmtpEmail → Except BrevoExn Unit)
    (c : ContactForm) (hk : env.BREVO_API_KEY = none) :
    send_email_via_brevo env api c =
      (.error "An error occurred: BREVO_API_KEY not found in environment variables", []) := by
  unfold send_email_via_brevo
  rw [hk]

/-- With the key present and a successful provider call, exactly one call
is made and the composed email is returned. -/
theorem send_email_via_brevo_ok (env : Env) (api : SendSmtpEmail → Except BrevoExn Unit)
    (c : ContactForm) (k : String) (hk : env.BREVO_API_KEY = some k)
    (hok : api (composeEmail env c) = .ok ()) :
    send_email_via_brevo env api c = (.ok (composeEmail env c), [composeEmail env c]) := by
  unfold send_email_via_brevo
  rw [hk]
  simp [hok]

/-- With the key present and the provider raising `ApiException`, the single
call made is reported as a 500 detail. -/
theorem send_email_via_brevo_apiException (env : Env)
    (api : SendSmtpEmail → Except BrevoExn Unit) (c : ContactForm) (k m : String)
    (hk : env.BREVO_API_KEY = some k)
    (hfail : api (composeEmail env c) = .error (.apiException m)) :
    send_email_via_brevo env api c =
      (.error ("Failed to send email: " ++ m), [composeEmail env c]) := by
  unfold send_email_via_brevo
  rw [hk]
  simp [hfail]

/-- With the key present, any exception from the provider call — an
`ApiException` or any other exception such as a network failure — leaves
exactly one call made and is reported as the corresponding 500 detail. -/
theorem send_email_via_brevo_error (env : Env)
    (api : SendSmtpEmail → Except BrevoExn Unit) (c : ContactForm) (k : String)
    (exn : BrevoExn) (hk : env.BREVO_API_KEY = some k)
    (hfail : api (composeEmail env c) = .error exn) :
    send_email_via_brevo env api c =
      (.error (dispatchErrorDetail exn), [composeEmail env c]) := by
  unfold send_email_via_brevo
  rw [hk]
  cases exn <;> simp [hfail, dispatchErrorDetail]

/-- `inWindowResponse` never reports an admission. -/
theorem isAdmitted_inWindowResponse (ev : String → Bool) (q : ContactRequest) :
    isAdmitted (inWindowResponse ev q) = false := by
  unfold inWindowResponse
  cases hp : parseContactForm ev q.form <;> simp [isAdmitted]

/-- Invariant run: starting from a storage whose record for `addr` is a live
window that has already counted at least one hit, a sequence of requests
from `addr` arriving before the expiry produces exactly the in-window
responses (422 for invalid bodies, 429 for valid ones), and afterwards the
record still has the same expiry and a count of at least one. -/
theorem runRequests_live_window (ev : String → Bool) (env : Env)
    (api : SendSmtpEmail → Except BrevoExn Unit) (addr : String) (expiry : Nat)
    (reqs : List ContactRequest) :
    ∀ (s : RateState) (c : Nat),
      lookupEntry s addr = some ⟨expiry, c⟩ → 1 ≤ c →
      (∀ q ∈ reqs, q.addr = addr ∧ q.time < expiry) →
      (runRequests ev env api s reqs).1 = reqs.map (inWindowResponse ev) ∧
      ∃ c', 1 ≤ c' ∧
        lookupEntry (runRequests ev env api s reqs).2 addr = some ⟨expiry, c'⟩ := by
  induction reqs with
  | nil =>
    intro s c hs hc _
    exact ⟨rfl, c, hc, hs⟩
  | cons q qs ih =>
    intro s c hs hc hall
    obtain ⟨hqa, hqt⟩ := hall q (List.mem_cons_self q qs)
    have hrest : ∀ p ∈ qs, p.addr = addr ∧ p.time < expiry :=
      fun p hp => hall p (List.mem_cons_of_mem q hp)
    cases hp : parseContactForm ev q.form with
    | error errs =>
      have hstep := handleContact_of_parse_error ev env api s q.addr q.time q.form errs hp
      have htail := ih s c hs hc hrest
      simp only [runRequests, hstep, List.map_cons]
      refine ⟨?_, htail.2⟩
      simp only [inWindowResponse, hp, htail.1]
    | ok form =>
      have hhit : rateLimitHit s q.addr q.time = (false, setEntry s addr ⟨expiry, c + 1⟩) := by
        rw [hqa, rateLimitHit_live s addr q.time ⟨expiry, c⟩ hs hc hqt]
      have hstep := handleContact_of_parse_ok_denied ev env api s q.addr q.time q.form form hp
        (by rw [hhit])
      have hs' : lookupEntry (setEntry s addr ⟨expiry, c + 1⟩) addr = some ⟨expiry, c + 1⟩ :=
        lookupEntry_setEntry_self s addr ⟨expiry, c + 1⟩
      have htail := ih (setEntry s addr ⟨expiry, c + 1⟩) (c + 1) hs' (by omega) hrest
      simp only [runRequests, hstep, hhit, List.map_cons]
      refine ⟨?_, htail.2⟩
      simp only [inWindowResponse, hp, htail.1]

/-! ## Claim theorems -/

/-- Claim C2: the validator accepts a raw submission iff the name is
non-empty and at most 100 characters, the email satisfies the email
grammar, the subject is non-empty and at most 200 characters, and the
message is non-empty and at most 5000 characters; any violation fails
with the list of exactly the offending fields, which is never empty. -/
theorem validator_accepts_iff (ev : String → Bool) (r : RawForm) :
    (accepted (parseContactForm ev r) = true ↔
      ((r.name ≠ "" ∧ r.name.length ≤ 100) ∧ ev r.email = true ∧
        (r.subject ≠ "" ∧ r.subject.length ≤ 200) ∧
        (r.message ≠ "" ∧ r.message.length ≤ 5000))) ∧
    (∀ errs, parseContactForm ev r = .error errs →
      errs ≠ [] ∧ ∀ f, f ∈ errs ↔ fieldViolated ev r f = true) := by
  constructor
  · rw [← nameOk_iff, ← subjectOk_iff, ← messageOk_iff, ← contactFormErrors_eq_nil_iff]
    unfold parseContactForm accepted
    split_ifs with h <;> simp [h]
  · intro errs herrs
    unfold parseContactForm at herrs
    split_ifs at herrs with h
    have herrs' : contactFormErrors ev r = errs := Except.error.inj herrs
    subst herrs'
    exact ⟨h, fun f => mem_contactFormErrors ev r f⟩

/-- Claim C2 witness: instantiation at the concrete submission with an
empty name, whose error list is exactly `[name]`. -/
theorem validator_accepts_iff_witness :
    parseContactForm demoEmailValid demoBadForm = .error [FieldName.name] ∧
    ([FieldName.name] ≠ ([] : List FieldName) ∧
      ∀ f, f ∈ [FieldName.name] ↔ fieldViolated demoEmailValid demoBadForm f = true) :=
  ⟨rfl,
    (validator_accepts_iff demoEmailValid demoBadForm).2 [FieldName.name] rfl⟩

/-- Claim C5: a submission with a violated field is answered with HTTP 422
and no call to the email provider is made. -/
theorem invalid_submission_no_dispatch (ev : String → Bool) (env : Env)
    (api : SendSmtpEmail → Except BrevoExn Unit) (s : RateState) (addr : String)
    (t : Nat) (r : RawForm) (h : ∃ f, fieldViolated ev r f = true) :
    statusCode (handleContact ev env api s addr t r).response = 422 ∧
    (handleContact ev env api s addr t r).dispatchCalls = [] := by
  obtain ⟨f, hf⟩ := h
  have herr : contactFormErrors ev r ≠ [] := by
    intro h0
    have hmem := (mem_contactFormErrors ev r f).mpr hf
    rw [h0] at hmem
    exact absurd hmem (List.not_mem_nil f)
  unfold handleContact parseContactForm
  rw [if_neg herr]
  exact ⟨rfl, rfl⟩

/-- Claim C5 witness: the empty-name submission is answered with 422 and
no dispatch call. -/
theorem invalid_submission_no_dispatch_witness :
    statusCode (handleContact demoEmailValid demoEnv apiOk [] "1.2.3.4" 0 demoBadForm).response
        = 422 ∧
    (handleContact demoEmailValid demoEnv apiOk [] "1.2.3.4" 0 demoBadForm).dispatchCalls
        = [] :=
  invalid_submission_no_dispatch demoEmailValid demoEnv apiOk [] "1.2.3.4" 0 demoBadForm
    ⟨FieldName.name, by decide⟩

/-- Claim C8: the composed notification is addressed to the configured
recipient, its reply-to is the submitter's address and name, its subject
is derived from the submitted subject, and both the rich-text and the
plain-text renderings contain the submitter's name and message. -/
theorem dispatcher_notification_shape (env : Env) (c : ContactForm) :
    (composeEmail env c).toEmails = [recipientEmail env] ∧
    (composeEmail env c).replyToEmail = c.email ∧
    (composeEmail env c).replyToName = c.name ∧
    (composeEmail env c).subject = "Contact Form: " ++ c.subject ∧
    (∃ a b, (composeEmail env c).htmlContent = a ++ c.name ++ b) ∧
    (∃ a b, (composeEmail env c).htmlContent = a ++ c.message ++ b) ∧
    (∃ a b, (composeEmail env c).textContent = a ++ c.name ++ b) ∧
    (∃ a b, (composeEmail env c).textContent = a ++ c.message ++ b) := by
  refine ⟨rfl, rfl, rfl, rfl, ?_, ?_, ?_, ?_⟩
  · exact ⟨htmlChunk0,
      htmlChunk1 ++ c.email ++ htmlChunk2 ++ c.subject ++ htmlChunk3 ++ c.message ++ htmlChunk4,
      by simp [composeEmail, htmlContentOf, String.append_assoc]⟩
  · exact ⟨htmlChunk0 ++ c.name ++ htmlChunk1 ++ c.email ++ htmlChunk2 ++ c.subject ++ htmlChunk3,
      htmlChunk4, rfl⟩
  · exact ⟨textChunk0,
      textChunk1 ++ c.email ++ textChunk2 ++ c.subject ++ textChunk3 ++ c.message ++ textChunk4,
      by simp [composeEmail, textContentOf, String.append_assoc]⟩
  · exact ⟨textChunk0 ++ c.name ++ textChunk1 ++ c.email ++ textChunk2 ++ c.subject ++ textChunk3,
      textChunk4, rfl⟩

/-- Claim C1 counterexample: after an admitted request from `8.8.8.8`
opens the window, a further request from the same address inside the
window whose body is invalid is answered 422, not 429 — so the claim's
"rejected with a 429 regardless of whether its body is valid" is false. -/
theorem rate_limit_429_regardless_cex :
    isAdmitted (handleContact demoEmailValid demoEnv apiOk [] "8.8.8.8" 0 demoForm).response
        = true ∧
    (handleContact demoEmailValid demoEnv apiOk
        (handleContact demoEmailValid demoEnv apiOk [] "8.8.8.8" 0 demoForm).state
        "8.8.8.8" 10 demoBadForm).response = .validationError [FieldName.name] ∧
    (handleContact demoEmailValid demoEnv apiOk
        (handleContact demoEmailValid demoEnv apiOk [] "8.8.8.8" 0 demoForm).state
        "8.8.8.8" 10 demoBadForm).response ≠ .rateLimited := by
  decide

/-- Claim C1 (amended): from a fresh state, the first valid-body request of
an address is admitted and opens a 60-minute window; within that window no
further request from the address is admitted: every further valid-body
request is rejected with 429, while invalid-body requests are rejected
with 422 by validation before the limiter is consulted. -/
theorem contact_single_admission_per_window (ev : String → Bool) (env : Env)
    (api : SendSmtpEmail → Except BrevoExn Unit) (addr : String) (t₀ : Nat)
    (r₀ : RawForm) (reqs : List ContactRequest)
    (h₀ : contactFormErrors ev r₀ = [])
    (hall : ∀ q ∈ reqs, q.addr = addr ∧ q.time < t₀ + windowSeconds) :
    isAdmitted (handleContact ev env api [] addr t₀ r₀).response = true ∧
    (runRequests ev env api (handleContact ev env api [] addr t₀ r₀).state reqs).1 =
      reqs.map (inWindowResponse ev) ∧
    ∀ resp ∈ (runRequests ev env api (handleContact ev env api [] addr t₀ r₀).state reqs).1,
      isAdmitted resp = false := by
  have hp := parse_ok_of_errors_nil ev r₀ h₀
  have hfresh : rateLimitHit ([] : RateState) addr t₀ =
      (true, [(addr, ⟨t₀ + windowSeconds, 1⟩)]) := by
    rw [rateLimitHit_fresh ([] : RateState) addr t₀ rfl]
    rfl
  have hfacts := handleContact_admitted_facts ev env api [] addr t₀ r₀ _ hp (by rw [hfresh])
  have hlook : lookupEntry (handleContact ev env api [] addr t₀ r₀).state addr =
      some ⟨t₀ + windowSeconds, 1⟩ := by
    rw [hfacts.2, hfresh]
    simp [lookupEntry]
  have hrun := runRequests_live_window ev env api addr (t₀ + windowSeconds) reqs
    (handleContact ev env api [] addr t₀ r₀).state 1 hlook (by omega) hall
  refine ⟨hfacts.1, hrun.1, ?_⟩
  intro resp hresp
  rw [hrun.1] at hresp
  obtain ⟨q, hq, rfl⟩ := List.mem_map.mp hresp
  exact isAdmitted_inWindowResponse ev q

/-- Claim C1 witness: the concrete admitted request at time 100 followed by
a valid and an invalid request inside its window. -/
theorem contact_single_admission_per_window_witness :
    contactFormErrors demoEmailValid demoForm = [] ∧
    (runRequests demoEmailValid demoEnv apiOk
        (handleContact demoEmailValid demoEnv apiOk [] "9.9.9.9" 100 demoForm).state
        demoReqs).1 = demoReqs.map (inWindowResponse demoEmailValid) :=
  ⟨rfl, (contact_single_admission_per_window demoEmailValid demoEnv apiOk "9.9.9.9" 100
    demoForm demoReqs rfl (by decide)).2.1⟩

/-- Claim C3 counterexample: a request over the rate limit whose body is
malformed receives 422, not 429 — FastAPI validates the body before the
slowapi gate inside the decorated endpoint ever runs. -/
theorem pipeline_order_cex :
    isAdmitted (handleContact demoEmailValid demoEnv apiOk [] "7.7.7.7" 0 demoForm).response
        = true ∧
    statusCode (handleContact demoEmailValid demoEnv apiOk
        (handleContact demoEmailValid demoEnv apiOk [] "7.7.7.7" 0 demoForm).state
        "7.7.7.7" 1 demoBadForm2).response = 422 ∧
    statusCode (handleContact demoEmailValid demoEnv apiOk
        (handleContact demoEmailValid demoEnv apiOk [] "7.7.7.7" 0 demoForm).state
        "7.7.7.7" 1 demoBadForm2).response ≠ 429 := by
  decide

/-- Claim C3 (amended): the processing order is field validation first,
then the rate-limiter gate, then dispatch: a request failing validation is
answered 422 with the limiter storage untouched and no dispatch, a valid
request denied by the limiter is answered 429 with no dispatch, and a
dispatch call implies the request passed both validation and the gate. -/
theorem contact_validation_before_rate_gate (ev : String → Bool) (env : Env)
    (api : SendSmtpEmail → Except BrevoExn Unit) (s : RateState) (addr : String)
    (t : Nat) (r : RawForm) :
    (∀ errs, parseContactForm ev r = .error errs →
      handleContact ev env api s addr t r = ⟨.validationError errs, [], s⟩) ∧
    (∀ form, parseContactForm ev r = .ok form → (rateLimitHit s addr t).1 = false →
      handleContact ev env api s addr t r = ⟨.rateLimited, [], (rateLimitHit s addr t).2⟩) ∧
    ((handleContact ev env api s addr t r).dispatchCalls ≠ [] →
      accepted (parseContactForm ev r) = true ∧ (rateLimitHit s addr t).1 = true) := by
  refine ⟨fun errs h => handleContact_of_parse_error ev env api s addr t r errs h,
    fun form hp hh => handleContact_of_parse_ok_denied ev env api s addr t r form hp hh, ?_⟩
  intro hcalls
  cases hp : parseContactForm ev r with
  | error errs =>
    rw [handleContact_of_parse_error ev env api s addr t r errs hp] at hcalls
    simp at hcalls
  | ok form =>
    refine ⟨rfl, ?_⟩
    cases hb : (rateLimitHit s addr t).1 with
    | false =>
      rw [handleContact_of_parse_ok_denied ev env api s addr t r form hp hb] at hcalls
      simp at hcalls
    | true => rfl

/-- Claim C3 witness: an over-limit storage and an invalid body yield 422
with the storage unchanged. -/
theorem contact_validation_before_rate_gate_witness :
    handleContact demoEmailValid demoEnv apiOk [("6.6.6.6", ⟨3600, 1⟩)] "6.6.6.6" 5 demoBadForm
      = ⟨.validationError [FieldName.name], [], [("6.6.6.6", ⟨3600, 1⟩)]⟩ :=
  (contact_validation_before_rate_gate demoEmailValid demoEnv apiOk
    [("6.6.6.6", ⟨3600, 1⟩)] "6.6.6.6" 5 demoBadForm).1 [FieldName.name] rfl

/-- Claim C4 counterexample: with `BREVO_API_KEY` unset the service still
handles a valid request and the missing variable surfaces as that
request's HTTP 500 — an error raised during handling of an individual
request, contradicting "startup-time, never per-request". -/
theorem config_startup_error_cex :
    (handleContact demoEmailValid demoEnvEmpty apiOk [] "5.5.5.5" 0 demoForm).response
      = .dispatchError "An error occurred: BREVO_API_KEY not found in environment variables" ∧
    statusCode
      (handleContact demoEmailValid demoEnvEmpty apiOk [] "5.5.5.5" 0 demoForm).response
      = 500 := by
  decide

/-- Claim C4 (amended): the configuration values are read from the process
environment at dispatch time during the handling of each request: a
missing API key makes the admitted request fail with a per-request 500
before any provider call, and missing sender/recipient values silently
fall back to built-in defaults; there is no startup-time presence check. -/
theorem config_read_per_request (ev : String → Bool) (env : Env)
    (api : SendSmtpEmail → Except BrevoExn Unit) (s : RateState) (addr : String)
    (t : Nat) (r : RawForm) (form : ContactForm)
    (hp : parseContactForm ev r = .ok form)
    (hh : (rateLimitHit s addr t).1 = true)
    (hk : env.BREVO_API_KEY = none) :
    (handleContact ev env api s addr t r).response =
      .dispatchError "An error occurred: BREVO_API_KEY not found in environment variables" ∧
    statusCode (handleContact ev env api s addr t r).response = 500 ∧
    (handleContact ev env api s addr t r).dispatchCalls = [] ∧
    (env.SENDER_EMAIL = none → senderEmail env = "noreply@yourdomain.com") ∧
    (env.SENDER_NAME = none → senderName env = "Contact Form") ∧
    (env.RECIPIENT_EMAIL = none → recipientEmail env = "dumilakshan4878@gmail.com") := by
  have hstep := handleContact_of_parse_ok_admitted ev env api s addr t r form hp hh
  rw [hstep, send_email_via_brevo_noKey env api form hk]
  refine ⟨rfl, rfl, rfl, ?_, ?_, ?_⟩
  · intro h; simp [senderEmail, h]
  · intro h; simp [senderName, h]
  · intro h; simp [recipientEmail, h]

/-- Claim C4 witness: the amended theorem at the empty environment. -/
theorem config_read_per_request_witness :
    (handleContact demoEmailValid demoEnvEmpty apiFail [] "5.5.5.6" 0 demoForm).response =
      .dispatchError "An error occurred: BREVO_API_KEY not found in environment variables" ∧
    senderEmail demoEnvEmpty = "noreply@yourdomain.com" :=
  have h := config_read_per_request demoEmailValid demoEnvEmpty apiFail [] "5.5.5.6" 0
    demoForm ⟨"John Doe", "john@example.com", "Inquiry", "Hello"⟩ rfl rfl rfl
  ⟨h.1, h.2.2.2.1 rfl⟩

/-- Claim C6: when the provider call fails with any exception — provider
rejection (`ApiException`) or network failure (any other exception) — the
caller gets HTTP 500 with a human-readable detail, no success response is
emitted, and exactly one dispatch attempt was made (no automatic retry). -/
theorem dispatch_failure_500 (ev : String → Bool) (env : Env)
    (api : SendSmtpEmail → Except BrevoExn Unit) (s : RateState) (addr : String)
    (t : Nat) (r : RawForm) (form : ContactForm) (k : String) (exn : BrevoExn)
    (hp : parseContactForm ev r = .ok form)
    (hh : (rateLimitHit s addr t).1 = true)
    (hk : env.BREVO_API_KEY = some k)
    (hfail : api (composeEmail env form) = .error exn) :
    (handleContact ev env api s addr t r).response
        = .dispatchError (dispatchErrorDetail exn) ∧
    statusCode (handleContact ev env api s addr t r).response = 500 ∧
    (∀ n e sub, (handleContact ev env api s addr t r).response ≠ .success n e sub) ∧
    (handleContact ev env api s addr t r).dispatchCalls = [composeEmail env form] := by
  have hstep := handleContact_of_parse_ok_admitted ev env api s addr t r form hp hh
  rw [hstep, send_email_via_brevo_error env api form k exn hk hfail]
  exact ⟨rfl, rfl, fun n e sub h => by simp at h, rfl⟩

/-- Claim C6 witness: both failure kinds on the valid demo submission — a
network-style failure and a provider `ApiException` — each yield the 500
detail of their arm, with exactly one dispatch attempt. -/
theorem dispatch_failure_500_witness :
    (handleContact demoEmailValid demoEnv apiNetFail [] "4.4.4.4" 0 demoForm).response
        = .dispatchError ("An error occurred: " ++ "connection timeout") ∧
    (handleContact demoEmailValid demoEnv apiFail [] "4.4.4.5" 0 demoForm).response
        = .dispatchError ("Failed to send email: " ++ "boom") ∧
    (handleContact demoEmailValid demoEnv apiNetFail [] "4.4.4.4" 0 demoForm).dispatchCalls.length
        = 1 :=
  have hn := dispatch_failure_500 demoEmailValid demoEnv apiNetFail [] "4.4.4.4" 0 demoForm
    ⟨"John Doe", "john@example.com", "Inquiry", "Hello"⟩ "key123"
    (.otherException "connection timeout") rfl rfl rfl rfl
  have ha := dispatch_failure_500 demoEmailValid demoEnv apiFail [] "4.4.4.5" 0 demoForm
    ⟨"John Doe", "john@example.com", "Inquiry", "Hello"⟩ "key123"
    (.apiException "boom") rfl rfl rfl rfl
  ⟨hn.1, ha.1, by rw [hn.2.2.2]; rfl⟩

/-- Claim C7: a valid admitted submission whose dispatch succeeds is
answered 200 with a success payload echoing the submitted name, email and
subject, and exactly one dispatch call is made. -/
theorem valid_submission_success_response (ev : String → Bool) (env : Env)
    (api : SendSmtpEmail → Except BrevoExn Unit) (s : RateState) (addr : String)
    (t : Nat) (r : RawForm) (form : ContactForm) (k : String)
    (hp : parseContactForm ev r = .ok form)
    (hh : (rateLimitHit s addr t).1 = true)
    (hk : env.BREVO_API_KEY = some k)
    (hok : api (composeEmail env form) = .ok ()) :
    (handleContact ev env api s addr t r).response = .success r.name r.email r.subject ∧
    statusCode (handleContact ev env api s addr t r).response = 200 ∧
    (handleContact ev env api s addr t r).dispatchCalls = [composeEmail env form] ∧
    (handleContact ev env api s addr t r).dispatchCalls.length = 1 := by
  have hform := parse_ok_inv ev r form hp
  have hstep := handleContact_of_parse_ok_admitted ev env api s addr t r form hp hh
  rw [hstep, send_email_via_brevo_ok env api form k hk hok]
  subst hform
  exact ⟨rfl, rfl, rfl, rfl⟩

/-- Claim C7 witness: the demo submission through the accepting provider. -/
theorem valid_submission_success_response_witness :
    (handleContact demoEmailValid demoEnv apiOk [] "3.3.3.3" 0 demoForm).response
        = .success "John Doe" "john@example.com" "Inquiry" ∧
    (handleContact demoEmailValid demoEnv apiOk [] "3.3.3.3" 0 demoForm).dispatchCalls.length
        = 1 :=
  have h := valid_submission_success_response demoEmailValid demoEnv apiOk [] "3.3.3.3" 0
    demoForm ⟨"John Doe", "john@example.com", "Inquiry", "Hello"⟩ "key123" rfl rfl rfl rfl
  ⟨h.1, h.2.2.2⟩

/-- Claim C9: once the window opened by the first admitted request has
elapsed, the next valid request from the address is admitted again and the
address's record is reset to a fresh window counting one hit. -/
theorem contact_window_reset (ev : String → Bool) (env : Env)
    (api : SendSmtpEmail → Except BrevoExn Unit) (addr : String) (t₀ : Nat)
    (r₀ : RawForm) (reqs : List ContactRequest) (t₁ : Nat) (r₁ : RawForm)
    (h₀ : contactFormErrors ev r₀ = [])
    (hall : ∀ q ∈ reqs, q.addr = addr ∧ q.time < t₀ + windowSeconds)
    (h₁ : contactFormErrors ev r₁ = [])
    (ht₁ : t₀ + windowSeconds ≤ t₁) :
    isAdmitted (handleContact ev env api
        (runRequests ev env api (handleContact ev env api [] addr t₀ r₀).state reqs).2
        addr t₁ r₁).response = true ∧
    lookupEntry (handleContact ev env api
        (runRequests ev env api (handleContact ev env api [] addr t₀ r₀).state reqs).2
        addr t₁ r₁).state addr = some ⟨t₁ + windowSeconds, 1⟩ := by
  have hp₀ := parse_ok_of_errors_nil ev r₀ h₀
  have hfresh : rateLimitHit ([] : RateState) addr t₀ =
      (true, [(addr, ⟨t₀ + windowSeconds, 1⟩)]) := by
    rw [rateLimitHit_fresh ([] : RateState) addr t₀ rfl]
    rfl
  have hfacts := handleContact_admitted_facts ev env api [] addr t₀ r₀ _ hp₀ (by rw [hfresh])
  have hlook : lookupEntry (handleContact ev env api [] addr t₀ r₀).state addr =
      some ⟨t₀ + windowSeconds, 1⟩ := by
    rw [hfacts.2, hfresh]
    simp [lookupEntry]
  have hrun := runRequests_live_window ev env api addr (t₀ + windowSeconds) reqs
    (handleContact ev env api [] addr t₀ r₀).state 1 hlook (by omega) hall
  obtain ⟨c', hc', hlook'⟩ := hrun.2
  have hp₁ := parse_ok_of_errors_nil ev r₁ h₁
  have hexp := rateLimitHit_expired
    (runRequests ev env api (handleContact ev env api [] addr t₀ r₀).state reqs).2
    addr t₁ ⟨t₀ + windowSeconds, c'⟩ hlook' ht₁
  have hfacts₂ := handleContact_admitted_facts ev env api
    (runRequests ev env api (handleContact ev env api [] addr t₀ r₀).state reqs).2
    addr t₁ r₁ _ hp₁ (by rw [hexp])
  refine ⟨hfacts₂.1, ?_⟩
  rw [hfacts₂.2, hexp]
  exact lookupEntry_setEntry_self _ addr ⟨t₁ + windowSeconds, 1⟩

/-- Claim C9 witness: one hour after the admitted demo request (and two
in-window rejections), a valid request from the same address is admitted. -/
theorem contact_window_reset_witness :
    isAdmitted (handleContact demoEmailValid demoEnv apiOk
        (runRequests demoEmailValid demoEnv apiOk
          (handleContact demoEmailValid demoEnv apiOk [] "9.9.9.8" 100 demoForm).state
          [⟨160, "9.9.9.8", demoForm2⟩]).2
        "9.9.9.8" 3700 demoForm2).response = true :=
  (contact_window_reset demoEmailValid demoEnv apiOk "9.9.9.8" 100 demoForm
    [⟨160, "9.9.9.8", demoForm2⟩] 3700 demoForm2 rfl (by decide) rfl (by decide)).1

/-- Claim C10: the quota is consumed by the admitting hit before dispatch
and is not restored when dispatch fails: a request answered 500 still
counts, and a later valid request from the same address inside the same
window is rejected with 429. -/
theorem quota_consumed_despite_dispatch_failure (ev : String → Bool) (env : Env)
    (api : SendSmtpEmail → Except BrevoExn Unit) (addr : String) (t₀ t₁ : Nat)
    (r₀ r₁ : RawForm) (k m : String)
    (hk : env.BREVO_API_KEY = some k)
    (h₀ : contactFormErrors ev r₀ = [])
    (hfail : api (composeEmail env ⟨r₀.name, r₀.email, r₀.subject, r₀.message⟩)
        = .error (.apiException m))
    (h₁ : contactFormErrors ev r₁ = [])
    (ht : t₁ < t₀ + windowSeconds) :
    (handleContact ev env api [] addr t₀ r₀).response
        = .dispatchError ("Failed to send email: " ++ m) ∧
    statusCode (handleContact ev env api [] addr t₀ r₀).response = 500 ∧
    (handleContact ev env api
        (handleContact ev env api [] addr t₀ r₀).state addr t₁ r₁).response
        = .rateLimited := by
  have hp₀ := parse_ok_of_errors_nil ev r₀ h₀
  have hfresh : rateLimitHit ([] : RateState) addr t₀ =
      (true, [(addr, ⟨t₀ + windowSeconds, 1⟩)]) := by
    rw [rateLimitHit_fresh ([] : RateState) addr t₀ rfl]
    rfl
  have hstep := handleContact_of_parse_ok_admitted ev env api [] addr t₀ r₀ _ hp₀
    (by rw [hfresh])
  have hout : handleContact ev env api [] addr t₀ r₀ =
      ⟨.dispatchError ("Failed to send email: " ++ m),
        [composeEmail env ⟨r₀.name, r₀.email, r₀.subject, r₀.message⟩],
        [(addr, ⟨t₀ + windowSeconds, 1⟩)]⟩ := by
    rw [hstep, send_email_via_brevo_apiException env api _ k m hk hfail, hfresh]
  rw [hout]
  refine ⟨rfl, rfl, ?_⟩
  show (handleContact ev env api [(addr, ⟨t₀ + windowSeconds, 1⟩)] addr t₁ r₁).response
      = .rateLimited
  have hp₁ := parse_ok_of_errors_nil ev r₁ h₁
  have hlive := rateLimitHit_live [(addr, ⟨t₀ + windowSeconds, 1⟩)] addr t₁
    ⟨t₀ + windowSeconds, 1⟩ (by simp [lookupEntry]) (Nat.le_refl 1) ht
  rw [handleContact_of_parse_ok_denied ev env api [(addr, ⟨t₀ + windowSeconds, 1⟩)] addr t₁ r₁
    _ hp₁ (by rw [hlive])]

/-- Claim C10 witness: a 500 dispatch failure followed by a 429 from the
same address ten seconds later. -/
theorem quota_consumed_despite_dispatch_failure_witness :
    (handleContact demoEmailValid demoEnv apiFail [] "2.2.2.2" 0 demoForm).response
        = .dispatchError ("Failed to send email: " ++ "boom") ∧
    (handleContact demoEmailValid demoEnv apiFail
        (handleContact demoEmailValid demoEnv apiFail [] "2.2.2.2" 0 demoForm).state
        "2.2.2.2" 10 demoForm2).response = .rateLimited :=
  have h := quota_consumed_despite_dispatch_failure demoEmailValid demoEnv apiFail "2.2.2.2"
    0 10 demoForm demoForm2 "key123" "boom" rfl rfl rfl rfl (by decide)
  ⟨h.1, h.2.2⟩

end PortfolioMailSender
